import Mathlib

/-
Shallow embedding of EnergyPlus `src/EnergyPlus/MoistureBalanceEMPDManager.cc`
(module MoistureBalanceEMPDManager): the EMPD two-layer surface-moisture model.

Modelling conventions:
* `Real64` values are modelled as `ℚ` (exact arithmetic; `x / 0 = 0` under
  Lean's total division).
* The psychrometric utilities (`PsyRhovFnTdbWPb`, `PsyRhFnTdbRhov`,
  `PsyRhovFnTdbRh`, `PsyPsatFnTemp`) live outside this translation unit and are
  treated by the spec as pure external collaborators; they are passed in as the
  record `Psy`.  Likewise the transcendental primitives `std::pow`, `std::exp`,
  `std::log` are passed in as the record `NumOps`.
* Per-surface global arrays (`RVSurface(SurfNum)` etc.) become the fields of
  `EMPDSurfaceState`; the implicit per-call environment (`Surface(SurfNum)`,
  `Material`, `OutBaroPress`, `ZoneAirHumRat`, `HMassConvInFD`,
  `RhoVaporAirIn`, `TimeStepZone`) becomes the record `CalcInputs`.
* The C++ reference out-parameter `TempSat` is modelled by taking its incoming
  value as an argument and returning the (possibly unchanged) value.
-/

namespace MoistureBalanceEMPD

/-- KelvinConv from DataGlobals: conversion from Celsius to Kelvin. -/
def KelvinConv : ℚ := 273.15

/-- Lam from DataMoistureBalanceEMPD: heat of vaporization, 2500000 J/kg
(see the comment at line 410 of the source). -/
def Lam : ℚ := 2500000.0

/-- Transcendental numeric primitives used by the source (`std::pow` with
rational base and possibly non-integer exponent, `std::exp`, `std::log`),
treated as abstract parameters of the embedding. -/
structure NumOps where
  rpow : ℚ → ℚ → ℚ
  exp : ℚ → ℚ
  log : ℚ → ℚ

/-- Psychrometric utility collaborator (module Psychrometrics), treated by the
spec as pure external conversion functions. -/
structure Psy where
  rhovFnTdbWPb : ℚ → ℚ → ℚ → ℚ
  rhFnTdbRhov : ℚ → ℚ → ℚ
  rhovFnTdbRh : ℚ → ℚ → ℚ
  psatFnTemp : ℚ → ℚ

/-- EMPD-relevant fields of a `Material` record, as loaded by
`GetMoistureBalanceEMPDInput` (lines 192 to 200) plus the bulk `Density`. -/
structure MaterialData where
  EMPDmu : ℚ
  MoistACoeff : ℚ
  MoistBCoeff : ℚ
  MoistCCoeff : ℚ
  MoistDCoeff : ℚ
  EMPDSurfaceDepth : ℚ
  EMPDDeepDepth : ℚ
  EMPDCoatingThickness : ℚ
  EMPDmuCoating : ℚ
  Density : ℚ
deriving DecidableEq

/-- One surface's slice of the module-level per-surface arrays (lines 82 to 84
of this file and the arrays of DataMoistureBalanceEMPD allocated at lines
305 to 319). -/
structure EMPDSurfaceState where
  RVSurface : ℚ
  RVSurfaceOld : ℚ
  RVSurfLayer : ℚ
  RVSurfLayerOld : ℚ
  RVDeepLayer : ℚ
  RVdeepOld : ℚ
  RVwall : ℚ
  HMSurfaceLayer : ℚ
  MassFluxSurfaceLayer : ℚ
  MassFluxDeepLayer : ℚ
  MassFluxZone : ℚ
  HeatFluxLatent : ℚ
  RhoVapEMPD : ℚ
  WSurfEMPD : ℚ
  RHEMPD : ℚ
deriving DecidableEq

/-- Per-call environment of `CalcMoistureBalanceEMPD` for one surface:
the surface's `HeatTransSurf` flag, its inside-layer material, the two
temperature arguments, and the implicit collaborator inputs
(`ZoneAirHumRat(surface.Zone)`, `OutBaroPress`, `HMassConvInFD(SurfNum)`,
`RhoVaporAirIn(SurfNum)`, `TimeStepZone`). -/
structure CalcInputs where
  heatTransSurf : Bool
  material : MaterialData
  tempSurfIn : ℚ
  tempZone : ℚ
  zoneAirHumRat : ℚ
  outBaroPress : ℚ
  hMassConvInFD : ℚ
  rhoVaporAirIn : ℚ
  timeStepZone : ℚ
deriving DecidableEq

/-- Source line 482: `Taver = TempSurfIn`. -/
def Taver (p : CalcInputs) : ℚ := p.tempSurfIn

/-- Source line 484: average vapor density of the exposed surface. -/
def RVaver (st : EMPDSurfaceState) : ℚ := (st.RVSurface + st.RVSurfaceOld) * 0.5

/-- Source line 485: average relative humidity from the empirical
saturation curve. -/
def RHaver (num : NumOps) (p : CalcInputs) (st : EMPDSurfaceState) : ℚ :=
  RVaver st * 461.52 * (Taver p + KelvinConv) *
    num.exp (-23.7093 + 4111.0 / (Taver p + 237.7))

/-- Source line 488: saturation vapor pressure at the average temperature. -/
def PVsat (psy : Psy) (p : CalcInputs) : ℚ := psy.psatFnTemp (Taver p)

/-- Source line 489: surface vapor pressure. -/
def PVsurf (num : NumOps) (p : CalcInputs) (st : EMPDSurfaceState) : ℚ :=
  RHaver num p st * num.exp (23.7093 - 4111.0 / (Taver p + 237.7))

/-- Source line 490: dew/saturation temperature diagnostic written to the
out-parameter `TempSat`. -/
def TempSatCalc (num : NumOps) (p : CalcInputs) (st : EMPDSurfaceState) : ℚ :=
  4111.0 / (23.7093 - num.log (PVsurf num p st)) + 35.45 - KelvinConv

/-- Source line 496: effective moisture diffusivity from the vapor
resistance factor. -/
def EMPDdiffusivity (num : NumOps) (p : CalcInputs) : ℚ :=
  (2.0e-7 * num.rpow (Taver p + KelvinConv) 0.81 / p.outBaroPress) /
      p.material.EMPDmu * 461.52 * (Taver p + KelvinConv)

/-- Source line 499: slope of the moisture sorption curve at the average RH. -/
def dU_dRH (num : NumOps) (p : CalcInputs) (st : EMPDSurfaceState) : ℚ :=
  p.material.MoistACoeff * p.material.MoistBCoeff *
      num.rpow (RHaver num p st) (p.material.MoistBCoeff - 1) +
    p.material.MoistCCoeff * p.material.MoistCCoeff * p.material.MoistDCoeff *
      num.rpow (RHaver num p st) (p.material.MoistDCoeff - 1)

/-- Source lines 503 to 507: coating resistance. -/
def Rcoating (num : NumOps) (p : CalcInputs) : ℚ :=
  if p.material.EMPDmuCoating ≤ 0 then 0
  else
    p.material.EMPDCoatingThickness * p.material.EMPDmuCoating * p.outBaroPress /
      (2.0e-7 * num.rpow (Taver p + KelvinConv) 0.81 * 461.52 * (Taver p + KelvinConv))

/-- Source line 510: mass-transfer coefficient between zone air and the center
of the surface layer. -/
def hm_surf_layer (num : NumOps) (p : CalcInputs) : ℚ :=
  1.0 / (0.5 * p.material.EMPDSurfaceDepth / EMPDdiffusivity num p +
    1.0 / p.hMassConvInFD + Rcoating num p)

/-- Source lines 513 to 517: mass-transfer coefficient between surface layer
and deep layer, zero when the deep layer is disabled. -/
def hm_deep_layer (num : NumOps) (p : CalcInputs) : ℚ :=
  if p.material.EMPDDeepDepth ≤ 0 then 0
  else 2.0 * EMPDdiffusivity num p / (p.material.EMPDDeepDepth + p.material.EMPDSurfaceDepth)

/-- Source line 520: resistance between the surface-layer/air interface and
the center of the surface layer. -/
def RSurfaceLayer (num : NumOps) (p : CalcInputs) : ℚ :=
  1.0 / hm_surf_layer num p - 1.0 / p.hMassConvInFD - Rcoating num p

/-- Source line 523: vapor flux leaving the surface layer. -/
def mass_flux_surf_layer (num : NumOps) (p : CalcInputs) (st : EMPDSurfaceState) : ℚ :=
  hm_surf_layer num p * (st.RVSurfLayer - p.rhoVaporAirIn) +
    hm_deep_layer num p * (st.RVSurfLayer - st.RVDeepLayer)

/-- Source line 524: vapor flux entering the deep layer. -/
def mass_flux_deep_layer (num : NumOps) (p : CalcInputs) (st : EMPDSurfaceState) : ℚ :=
  hm_deep_layer num p * (st.RVSurfLayer - st.RVDeepLayer)

/-- Source line 525: vapor flux entering the zone. -/
def mass_flux_zone (num : NumOps) (p : CalcInputs) (st : EMPDSurfaceState) : ℚ :=
  hm_surf_layer num p * (st.RVSurfLayer - p.rhoVaporAirIn)

/-- Source line 528: previous-timestep deep-layer relative humidity. -/
def RH_deep_layer_old (psy : Psy) (p : CalcInputs) (st : EMPDSurfaceState) : ℚ :=
  psy.rhFnTdbRhov (Taver p) st.RVdeepOld

/-- Source line 529: previous-timestep surface-layer relative humidity. -/
def RH_surf_layer_old (psy : Psy) (p : CalcInputs) (st : EMPDSurfaceState) : ℚ :=
  psy.rhFnTdbRhov (Taver p) st.RVSurfLayerOld

/-- Source line 532: explicit-Euler update of the surface-layer RH. -/
def RH_surf_layer (num : NumOps) (psy : Psy) (p : CalcInputs) (st : EMPDSurfaceState) : ℚ :=
  RH_surf_layer_old psy p st + p.timeStepZone * 3600.0 *
    (-mass_flux_surf_layer num p st /
      (p.material.Density * p.material.EMPDSurfaceDepth * dU_dRH num p st))

/-- Source lines 534 to 538: explicit-Euler update of the deep-layer RH,
unchanged when the deep layer is disabled. -/
def RH_deep_layer (num : NumOps) (psy : Psy) (p : CalcInputs) (st : EMPDSurfaceState) : ℚ :=
  if p.material.EMPDDeepDepth ≤ 0 then RH_deep_layer_old psy p st
  else
    RH_deep_layer_old psy p st + p.timeStepZone * 3600.0 *
      mass_flux_deep_layer num p st /
        (p.material.Density * p.material.EMPDDeepDepth * dU_dRH num p st)

/-- Source line 540: updated surface-layer vapor density. -/
def rv_surf_layer_new (num : NumOps) (psy : Psy) (p : CalcInputs) (st : EMPDSurfaceState) : ℚ :=
  psy.rhovFnTdbRh (Taver p) (RH_surf_layer num psy p st)

/-- Source line 541: updated deep-layer vapor density. -/
def rv_deep_layer_new (num : NumOps) (psy : Psy) (p : CalcInputs) (st : EMPDSurfaceState) : ℚ :=
  psy.rhovFnTdbRh (Taver p) (RH_deep_layer num psy p st)

/-- Source line 544: updated surface-layer vapor pressure. -/
def PV_surf_layer (num : NumOps) (psy : Psy) (p : CalcInputs) (st : EMPDSurfaceState) : ℚ :=
  RH_surf_layer num psy p st * num.exp (23.7093 - 4111.0 / (Taver p + 237.7))

/-- Source line 545: updated deep-layer vapor pressure. -/
def PV_deep_layer (num : NumOps) (psy : Psy) (p : CalcInputs) (st : EMPDSurfaceState) : ℚ :=
  RH_deep_layer num psy p st * num.exp (23.7093 - 4111.0 / (Taver p + 237.7))

/-- Source line 548: vapor density at the physical material surface (computed
from the updated surface-layer vapor density and the zone flux that was
computed from the pre-update state). -/
def rv_surface_new (num : NumOps) (psy : Psy) (p : CalcInputs) (st : EMPDSurfaceState) : ℚ :=
  rv_surf_layer_new num psy p st - mass_flux_zone num p st * RSurfaceLayer num p

/-- Source line 551: latent heat flux. -/
def heat_flux_latent_new (num : NumOps) (p : CalcInputs) (st : EMPDSurfaceState) : ℚ :=
  mass_flux_zone num p st * Lam

/-- CalcMoistureBalanceEMPD, source lines 452 to 559: the per-surface body of
the timestep advance, after the environment-reset latch block (the latch of
lines 443 to 450 is modelled separately by `OneTimeLatchStep`).  Line 467
zeroes `HeatFluxLatent` before either early return; line 470 returns for a
non-heat-transfer surface; lines 477 to 480 handle a non-moisture-active
material; the remainder is the two-layer update. -/
def CalcMoistureBalanceEMPD (num : NumOps) (psy : Psy) (p : CalcInputs)
    (st : EMPDSurfaceState) (TempSat : ℚ) : EMPDSurfaceState × ℚ :=
  let st1 : EMPDSurfaceState := { st with HeatFluxLatent := 0 }
  if p.heatTransSurf = false then (st1, TempSat)
  else if p.material.EMPDmu ≤ 0 then
    ({ st1 with RVSurface := psy.rhovFnTdbWPb p.tempZone p.zoneAirHumRat p.outBaroPress },
      TempSat)
  else
    ({ st1 with
        RVSurface := rv_surface_new num psy p st
        RVSurfLayer := rv_surf_layer_new num psy p st
        RVDeepLayer := rv_deep_layer_new num psy p st
        HMSurfaceLayer := hm_surf_layer num p
        MassFluxSurfaceLayer := mass_flux_surf_layer num p st
        MassFluxDeepLayer := mass_flux_deep_layer num p st
        MassFluxZone := mass_flux_zone num p st
        HeatFluxLatent := heat_flux_latent_new num p st
        RhoVapEMPD := rv_surf_layer_new num psy p st
        RHEMPD := RH_surf_layer num psy p st * 100.0
        WSurfEMPD := 0.622 * PV_surf_layer num psy p st /
          (p.outBaroPress - PV_surf_layer num psy p st) },
      TempSatCalc num p st)

/-- UpdateMoistureBalanceEMPD, source lines 620 to 622: the end-of-timestep
commit of current values into the old slots. -/
def UpdateMoistureBalanceEMPD (st : EMPDSurfaceState) : EMPDSurfaceState :=
  { st with
      RVSurfaceOld := st.RVSurface
      RVdeepOld := st.RVDeepLayer
      RVSurfLayerOld := st.RVSurfLayer }

/-- Per-surface inputs read by the seeding loop of `InitMoistureBalanceEMPD`
(source lines 322 to 350): the surface's `HeatTransSurf` flag, the zone's
current humidity ratio `ZoneAirHumRat(Surface(SurfNum).Zone)` and the
collaborator-supplied `RhoVaporAirIn(SurfNum)`. -/
structure SurfInitInput where
  heatTransSurf : Bool
  zoneAirHumRat : ℚ
  rhoVaporAirIn : ℚ
deriving DecidableEq

/-- One iteration of the seeding loop of `InitMoistureBalanceEMPD`, source
lines 322 to 350: non-heat-transfer surfaces are skipped; otherwise the dual
branch on `ZoneAirHumRat == 0.0` seeds the vapor-density slots, the fluxes
and the surface-layer mass-transfer coefficient. -/
def seedSurface (inp : SurfInitInput) (st : EMPDSurfaceState) : EMPDSurfaceState :=
  if inp.heatTransSurf = false then st
  else if inp.zoneAirHumRat = 0 then
    { st with
        RVSurfaceOld := inp.zoneAirHumRat
        RVSurface := inp.zoneAirHumRat
        RVSurfLayer := inp.rhoVaporAirIn
        RVSurfLayerOld := inp.rhoVaporAirIn
        RVDeepLayer := inp.rhoVaporAirIn
        RVdeepOld := inp.rhoVaporAirIn
        RVwall := inp.rhoVaporAirIn
        HMSurfaceLayer := 0.003
        MassFluxSurfaceLayer := 0
        MassFluxDeepLayer := 0
        MassFluxZone := 0 }
  else
    { st with
        RVSurfaceOld := inp.zoneAirHumRat
        RVSurface := inp.zoneAirHumRat
        RVSurfLayer := inp.rhoVaporAirIn
        RVSurfLayerOld := inp.rhoVaporAirIn
        RVDeepLayer := inp.rhoVaporAirIn
        RVdeepOld := inp.rhoVaporAirIn
        RVwall := inp.rhoVaporAirIn
        HMSurfaceLayer := 0.0003
        MassFluxSurfaceLayer := 0
        MassFluxDeepLayer := 0
        MassFluxZone := 0 }

/-- Report-variable reset of `InitMoistureBalanceEMPD`, source lines 353 to
356: whole-array assignments `RhoVapEMPD = 0.015`, `WSurfEMPD = 0.015`,
`RHEMPD = 0.0`, `HeatFluxLatent = 0.0`, restricted to one surface's slice. -/
def resetReportVars (st : EMPDSurfaceState) : EMPDSurfaceState :=
  { st with
      RhoVapEMPD := 0.015
      WSurfEMPD := 0.015
      RHEMPD := 0
      HeatFluxLatent := 0 }

/-- InitMoistureBalanceEMPD, source lines 269 to 370, on the per-surface state
(allocation of the arrays is modelled separately by `InitAllocates`): the
seeding loop always runs; then `if (!InitEnvrnFlag) return;` guards the
report-variable reset, and the function-static `InitEnvrnFlag` is cleared at
the end of the first execution and never set back to `true`.  Returns the new
value of `InitEnvrnFlag` together with the updated surface states. -/
def InitMoistureBalanceEMPD (inputs : List SurfInitInput) (initEnvrnFlag : Bool)
    (surfs : List EMPDSurfaceState) : Bool × List EMPDSurfaceState :=
  let seeded := List.zipWith seedSurface inputs surfs
  if initEnvrnFlag then (false, seeded.map resetReportVars)
  else (initEnvrnFlag, seeded)

/-- The environment-reset latch at the top of `CalcMoistureBalanceEMPD`,
source lines 443 to 450, acting on the function-static `OneTimeFlag`:
given the current `BeginEnvrnFlag` and `OneTimeFlag`, returns whether
`InitMoistureBalanceEMPD` is invoked on this call, together with the new
`OneTimeFlag`. -/
def OneTimeLatchStep (beginEnvrnFlag oneTimeFlag : Bool) : Bool × Bool :=
  let fire := beginEnvrnFlag && oneTimeFlag
  let afterFire := if fire then false else oneTimeFlag
  let rearmed := if beginEnvrnFlag = false then true else afterFire
  (fire, rearmed)

/-- Module lifecycle state threaded across calls: the static `OneTimeFlag` of
`CalcMoistureBalanceEMPD`, the static `InitEnvrnFlag` of
`InitMoistureBalanceEMPD`, and the per-surface state arrays. -/
structure LifecycleState where
  OneTimeFlag : Bool
  InitEnvrnFlag : Bool
  surfaces : List EMPDSurfaceState
deriving DecidableEq

/-- One execution of the latch block of `CalcMoistureBalanceEMPD` (source
lines 443 to 450): when it fires, `InitMoistureBalanceEMPD` runs over all
surfaces. -/
def LifecycleStep (beginEnvrnFlag : Bool) (inputs : List SurfInitInput)
    (ls : LifecycleState) : LifecycleState :=
  let r := OneTimeLatchStep beginEnvrnFlag ls.OneTimeFlag
  if r.1 then
    let q := InitMoistureBalanceEMPD inputs ls.InitEnvrnFlag ls.surfaces
    { OneTimeFlag := r.2, InitEnvrnFlag := q.1, surfaces := q.2 }
  else { ls with OneTimeFlag := r.2 }

/-- Number of invocations of `InitMoistureBalanceEMPD` (hence of the seeding
loop) produced by the latch over a sequence of `BeginEnvrnFlag` observations,
starting from a given `OneTimeFlag`. -/
def initCalls : Bool → List Bool → ℕ
  | _, [] => 0
  | oneTime, b :: rest =>
      (if (OneTimeLatchStep b oneTime).1 then 1 else 0) +
        initCalls (OneTimeLatchStep b oneTime).2 rest

/-- The fifteen module-level per-surface arrays allocated by
`InitMoistureBalanceEMPD`, source lines 305 to 319. -/
inductive EMPDArray where
  | RVSurfaceOld
  | RVSurface
  | HeatFluxLatent
  | RhoVapEMPD
  | WSurfEMPD
  | RHEMPD
  | RVSurfLayer
  | RVSurfLayerOld
  | RVDeepLayer
  | RVdeepOld
  | RVwall
  | HMSurfaceLayer
  | MassFluxSurfaceLayer
  | MassFluxDeepLayer
  | MassFluxZone
deriving DecidableEq

/-- Arrays allocated by the first-use initialization, source lines 305 to
319: all fifteen. -/
def InitAllocates : EMPDArray → Bool := fun _ => true

/-- Arrays deallocated by `CloseMoistureBalanceEMPD`, source lines 579 to
585: exactly seven of the fifteen. -/
def CloseMoistureBalanceEMPDDeallocates : EMPDArray → Bool
  | .RVSurfaceOld => true
  | .RVSurface => true
  | .HeatFluxLatent => true
  | .RVSurfLayer => true
  | .RVSurfLayerOld => true
  | .RVDeepLayer => true
  | .RVdeepOld => true
  | _ => false

/-- Whether an array is still allocated after init has run and
`CloseMoistureBalanceEMPD` has run. -/
def allocatedAfterClose (a : EMPDArray) : Bool :=
  InitAllocates a && ! CloseMoistureBalanceEMPDDeallocates a

/-- Concrete transcendental primitives used by witnesses: any total functions
serve, since the engine treats them as opaque collaborators. -/
def numOps0 : NumOps := ⟨fun x _ => x, fun _ => 1, fun _ => 0⟩

/-- Concrete psychrometric collaborator whose RH and vapor-density
conversions are mutually inverse (identity), used by witnesses. -/
def psy0 : Psy := ⟨fun _ w _ => w, fun _ x => x, fun _ x => x, fun _ => 0⟩

/-- Concrete psychrometric collaborator whose vapor-density conversion
returns the recognizable constant 42, used by the environment-reset
counterexample to mark a mid-environment engine write. -/
def psyConst42 : Psy := ⟨fun _ _ _ => 0, fun _ x => x, fun _ _ => 42, fun _ => 0⟩

/-- A moisture-active material: the end-to-end scenario material of the spec
(mu 200, a 0.02, b 1.5, c 0.01, d 3, surface depth 0.005 m, deep depth 0,
no coating, density 800). -/
def matActive : MaterialData :=
  ⟨200, 0.02, 1.5, 0.01, 3, 0.005, 0, 0, 0, 800⟩

/-- A non-moisture-active material (vapor resistance factor mu = 0). -/
def matInert : MaterialData := ⟨0, 0, 0, 0, 0, 0, 0, 0, 0, 1⟩

/-- Concrete call environment for an active heat-transfer surface (integer
magnitudes chosen so that witnesses evaluate by kernel reduction). -/
def pActive : CalcInputs :=
  { heatTransSurf := true
    material := matActive
    tempSurfIn := 22
    tempZone := 24
    zoneAirHumRat := 8
    outBaroPress := 101325
    hMassConvInFD := 1
    rhoVaporAirIn := 10
    timeStepZone := 1 }

/-- Concrete call environment for a heat-transfer surface with an inert
(mu = 0) inside-layer material. -/
def pInert : CalcInputs := { pActive with material := matInert }

/-- Concrete call environment for a non-heat-transfer surface. -/
def pNoHT : CalcInputs := { pActive with heatTransSurf := false }

/-- A concrete surface state with distinct field values. -/
def stA : EMPDSurfaceState :=
  ⟨11, 12, 13, 14, 15, 16, 17, 18, 19, 21, 22, 23, 24, 25, 26⟩

/-- A concrete surface state whose latent heat flux is 5. -/
def st5 : EMPDSurfaceState := { stA with HeatFluxLatent := 5 }

/-- A concrete surface state in moisture equilibrium with `pActive`:
`RVSurfLayer = RhoVaporAirIn = RVDeepLayer = 10`, with the old deep slot
matching the current one. -/
def stEq : EMPDSurfaceState :=
  { stA with RVSurfLayer := 10, RVDeepLayer := 10, RVdeepOld := 10 }

/-- The all-zero surface state. -/
def stZero : EMPDSurfaceState :=
  ⟨0, 0, 0, 0, 0, 0, 0, 0, 0, 0, 0, 0, 0, 0, 0⟩

/-- Concrete seeding input for one heat-transfer surface with nonzero zone
humidity ratio. -/
def inp1 : SurfInitInput := ⟨true, 8, 10⟩

/-- Two-environment lifecycle run used by the reporting-reset
counterexample: environment 1 begins (latch fires, first-time report reset
runs), the flag clears (latch re-arms), the engine advances the surface once
mid-environment (writing the reporting variable), then environment 2 begins
(latch fires again). -/
def envTwoRun : LifecycleState :=
  let ls1 := LifecycleStep true [inp1] ⟨true, true, [stZero]⟩
  let ls2 := LifecycleStep false [inp1] ls1
  let surf2 :=
    (CalcMoistureBalanceEMPD numOps0 psyConst42 pActive (ls2.surfaces.getD 0 stZero) 0).1
  LifecycleStep true [inp1] { ls2 with surfaces := [surf2] }

/-- C1: for a call of `CalcMoistureBalanceEMPD` on a heat-transfer surface
whose inside-layer material is not moisture-active (vapor resistance factor
mu at most 0), the call sets `RVSurface` to exactly the psychrometric
conversion of zone air temperature and zone humidity ratio at ambient
barometric pressure, and leaves all layer-state fields (`RVSurfLayer`,
`RVDeepLayer`, and the old slots) unchanged. -/
theorem c1_inactive_material_bypass (num : NumOps) (psy : Psy) (p : CalcInputs)
    (st : EMPDSurfaceState) (ts : ℚ) (hT : p.heatTransSurf = true)
    (hmu : p.material.EMPDmu ≤ 0) :
    ((CalcMoistureBalanceEMPD num psy p st ts).1).RVSurface =
        psy.rhovFnTdbWPb p.tempZone p.zoneAirHumRat p.outBaroPress ∧
      ((CalcMoistureBalanceEMPD num psy p st ts).1).RVSurfLayer = st.RVSurfLayer ∧
      ((CalcMoistureBalanceEMPD num psy p st ts).1).RVSurfLayerOld = st.RVSurfLayerOld ∧
      ((CalcMoistureBalanceEMPD num psy p st ts).1).RVDeepLayer = st.RVDeepLayer ∧
      ((CalcMoistureBalanceEMPD num psy p st ts).1).RVdeepOld = st.RVdeepOld ∧
      ((CalcMoistureBalanceEMPD num psy p st ts).1).RVSurfaceOld = st.RVSurfaceOld := by
  simp [CalcMoistureBalanceEMPD, hT, hmu]

/-- Witness for C1 at a concrete inert-material heat-transfer surface. -/
theorem c1_witness :
    ((CalcMoistureBalanceEMPD numOps0 psy0 pInert stA 0).1).RVSurface =
        psy0.rhovFnTdbWPb pInert.tempZone pInert.zoneAirHumRat pInert.outBaroPress ∧
      ((CalcMoistureBalanceEMPD numOps0 psy0 pInert stA 0).1).RVSurfLayer = stA.RVSurfLayer ∧
      ((CalcMoistureBalanceEMPD numOps0 psy0 pInert stA 0).1).RVSurfLayerOld = stA.RVSurfLayerOld ∧
      ((CalcMoistureBalanceEMPD numOps0 psy0 pInert stA 0).1).RVDeepLayer = stA.RVDeepLayer ∧
      ((CalcMoistureBalanceEMPD numOps0 psy0 pInert stA 0).1).RVdeepOld = stA.RVdeepOld ∧
      ((CalcMoistureBalanceEMPD numOps0 psy0 pInert stA 0).1).RVSurfaceOld = stA.RVSurfaceOld :=
  c1_inactive_material_bypass numOps0 psy0 pInert stA 0 rfl (by decide)

/-- C2 counterexample: a call on a non-heat-transfer surface is not a pure
no-op; the latent heat flux (5 before the call) is set to 0 rather than left
at its prior value, because line 467 zeroes it before the early return of
line 470. -/
theorem c2_counterexample :
    st5.HeatFluxLatent = 5 ∧
      ((CalcMoistureBalanceEMPD numOps0 psy0 pNoHT st5 0).1).HeatFluxLatent = 0 ∧
      (0 : ℚ) < 5 := by decide

/-- C2 amended: for a call on a surface whose `HeatTransSurf` flag is false,
the only state change is that the latent heat flux is set to zero; every
other field of the surface state, and the saturation-temperature
out-parameter, are left at their prior values. -/
theorem c2_amended_zeroes_latent_only (num : NumOps) (psy : Psy) (p : CalcInputs)
    (st : EMPDSurfaceState) (ts : ℚ) (hT : p.heatTransSurf = false) :
    CalcMoistureBalanceEMPD num psy p st ts = ({ st with HeatFluxLatent := 0 }, ts) := by
  simp [CalcMoistureBalanceEMPD, hT]

/-- Witness for the amended C2 at a concrete non-heat-transfer surface. -/
theorem c2_amended_witness :
    CalcMoistureBalanceEMPD numOps0 psy0 pNoHT st5 0 = ({ st5 with HeatFluxLatent := 0 }, 0) :=
  c2_amended_zeroes_latent_only numOps0 psy0 pNoHT st5 0 rfl

/-- C3: the environment-reset latch fires at most once per environment
transition: if the new-environment flag is observed set on two consecutive
calls without being cleared in between, the second call does not invoke the
re-seeding; while the flag stays set the latch stays disarmed, and it re-arms
exactly when the flag clears. -/
theorem c3_reset_latch_once :
    ∀ t : Bool,
      (OneTimeLatchStep true ((OneTimeLatchStep true t).2)).1 = false ∧
        (OneTimeLatchStep true false).2 = false ∧
        (OneTimeLatchStep false t).2 = true := by decide

/-- C4: for a moisture-active surface call, the sorption-curve slope dU/dRH
is computed from the four coefficients at the average relative humidity as
a times b times RH to the (b - 1) plus c squared times d times RH to the
(d - 1): the c coefficient is squared and the a coefficient is not.  The
slope in that exact shape is what reaches the reported surface-layer RH. -/
theorem c4_sorption_slope_c_squared (num : NumOps) (psy : Psy) (p : CalcInputs)
    (st : EMPDSurfaceState) (ts : ℚ) (hT : p.heatTransSurf = true)
    (hmu : 0 < p.material.EMPDmu) :
    dU_dRH num p st =
        p.material.MoistACoeff * p.material.MoistBCoeff *
            num.rpow (RHaver num p st) (p.material.MoistBCoeff - 1) +
          p.material.MoistCCoeff * p.material.MoistCCoeff * p.material.MoistDCoeff *
            num.rpow (RHaver num p st) (p.material.MoistDCoeff - 1) ∧
      ((CalcMoistureBalanceEMPD num psy p st ts).1).RHEMPD =
        (RH_surf_layer_old psy p st + p.timeStepZone * 3600.0 *
          (-mass_flux_surf_layer num p st /
            (p.material.Density * p.material.EMPDSurfaceDepth *
              (p.material.MoistACoeff * p.material.MoistBCoeff *
                  num.rpow (RHaver num p st) (p.material.MoistBCoeff - 1) +
                p.material.MoistCCoeff * p.material.MoistCCoeff * p.material.MoistDCoeff *
                  num.rpow (RHaver num p st) (p.material.MoistDCoeff - 1))))) * 100.0 := by
  have hmu2 : ¬ p.material.EMPDmu ≤ 0 := not_le.mpr hmu
  refine ⟨rfl, ?_⟩
  simp [CalcMoistureBalanceEMPD, hT, hmu2, RH_surf_layer, dU_dRH]

/-- Witness for C4 at a concrete moisture-active surface. -/
theorem c4_witness :
    dU_dRH numOps0 pActive stA =
        pActive.material.MoistACoeff * pActive.material.MoistBCoeff *
            numOps0.rpow (RHaver numOps0 pActive stA) (pActive.material.MoistBCoeff - 1) +
          pActive.material.MoistCCoeff * pActive.material.MoistCCoeff * pActive.material.MoistDCoeff *
            numOps0.rpow (RHaver numOps0 pActive stA) (pActive.material.MoistDCoeff - 1) ∧
      ((CalcMoistureBalanceEMPD numOps0 psy0 pActive stA 0).1).RHEMPD =
        (RH_surf_layer_old psy0 pActive stA + pActive.timeStepZone * 3600.0 *
          (-mass_flux_surf_layer numOps0 pActive stA /
            (pActive.material.Density * pActive.material.EMPDSurfaceDepth *
              (pActive.material.MoistACoeff * pActive.material.MoistBCoeff *
                  numOps0.rpow (RHaver numOps0 pActive stA) (pActive.material.MoistBCoeff - 1) +
                pActive.material.MoistCCoeff * pActive.material.MoistCCoeff * pActive.material.MoistDCoeff *
                  numOps0.rpow (RHaver numOps0 pActive stA) (pActive.material.MoistDCoeff - 1))))) * 100.0 :=
  c4_sorption_slope_c_squared numOps0 psy0 pActive stA 0 rfl (by decide)

/-- C5: for a moisture-active surface whose material has deep-layer
penetration depth at most 0, the deep-layer mass-transfer coefficient is
exactly 0 and the call leaves `RVDeepLayer` unchanged, under the
collaborator round-trip identity (converting a vapor density to RH and back
at the same temperature is the identity) and the commit invariant that the
old deep slot equals the current one at entry. -/
theorem c5_deep_layer_disabled (num : NumOps) (psy : Psy) (p : CalcInputs)
    (st : EMPDSurfaceState) (ts : ℚ) (hT : p.heatTransSurf = true)
    (hmu : 0 < p.material.EMPDmu) (hd : p.material.EMPDDeepDepth ≤ 0)
    (hround : psy.rhovFnTdbRh p.tempSurfIn (psy.rhFnTdbRhov p.tempSurfIn st.RVdeepOld) =
      st.RVdeepOld)
    (hold : st.RVdeepOld = st.RVDeepLayer) :
    hm_deep_layer num p = 0 ∧
      ((CalcMoistureBalanceEMPD num psy p st ts).1).RVDeepLayer = st.RVDeepLayer := by
  have hmu2 : ¬ p.material.EMPDmu ≤ 0 := not_le.mpr hmu
  constructor
  · simp [hm_deep_layer, hd]
  · have h1 : ((CalcMoistureBalanceEMPD num psy p st ts).1).RVDeepLayer =
        psy.rhovFnTdbRh p.tempSurfIn (psy.rhFnTdbRhov p.tempSurfIn st.RVdeepOld) := by
      simp [CalcMoistureBalanceEMPD, hT, hmu2, rv_deep_layer_new, RH_deep_layer, hd,
        RH_deep_layer_old, Taver]
    rw [h1, hround, hold]

/-- Witness for C5 at a concrete surface whose material has deep depth 0,
using the identity psychrometric collaborator. -/
theorem c5_witness :
    hm_deep_layer numOps0 pActive = 0 ∧
      ((CalcMoistureBalanceEMPD numOps0 psy0 pActive stEq 0).1).RVDeepLayer = stEq.RVDeepLayer :=
  c5_deep_layer_disabled numOps0 psy0 pActive stEq 0 rfl (by decide) (by decide) rfl rfl

/-- C10: for a moisture-active surface call entered with `RVSurfLayer` equal
to the incoming vapor density and to `RVDeepLayer`, the three computed mass
fluxes are exactly 0 (both as the computed local quantities and as the
fields stored by the call) and the updated surface-layer and deep-layer
relative humidities equal the prior ones. -/
theorem c10_zero_flux_idempotent (num : NumOps) (psy : Psy) (p : CalcInputs)
    (st : EMPDSurfaceState) (ts : ℚ) (hT : p.heatTransSurf = true)
    (hmu : 0 < p.material.EMPDmu) (h1 : st.RVSurfLayer = p.rhoVaporAirIn)
    (h2 : st.RVSurfLayer = st.RVDeepLayer) :
    mass_flux_surf_layer num p st = 0 ∧
      mass_flux_deep_layer num p st = 0 ∧
      mass_flux_zone num p st = 0 ∧
      RH_surf_layer num psy p st = RH_surf_layer_old psy p st ∧
      RH_deep_layer num psy p st = RH_deep_layer_old psy p st ∧
      ((CalcMoistureBalanceEMPD num psy p st ts).1).MassFluxSurfaceLayer = 0 ∧
      ((CalcMoistureBalanceEMPD num psy p st ts).1).MassFluxDeepLayer = 0 ∧
      ((CalcMoistureBalanceEMPD num psy p st ts).1).MassFluxZone = 0 := by
  have hmu2 : ¬ p.material.EMPDmu ≤ 0 := not_le.mpr hmu
  have h3 : st.RVDeepLayer = p.rhoVaporAirIn := h2.symm.trans h1
  have hsl : mass_flux_surf_layer num p st = 0 := by
    simp [mass_flux_surf_layer, h1, h3]
  have hdl : mass_flux_deep_layer num p st = 0 := by
    simp [mass_flux_deep_layer, h2]
  have hz : mass_flux_zone num p st = 0 := by
    simp [mass_flux_zone, h1]
  have hrs : RH_surf_layer num psy p st = RH_surf_layer_old psy p st := by
    simp [RH_surf_layer, hsl]
  have hrd : RH_deep_layer num psy p st = RH_deep_layer_old psy p st := by
    simp [RH_deep_layer, hdl]
  refine ⟨hsl, hdl, hz, hrs, hrd, ?_, ?_, ?_⟩ <;>
    simp [CalcMoistureBalanceEMPD, hT, hmu2, hsl, hdl, hz]

/-- Witness for C10 at a concrete equilibrium state. -/
theorem c10_witness :
    mass_flux_surf_layer numOps0 pActive stEq = 0 ∧
      mass_flux_deep_layer numOps0 pActive stEq = 0 ∧
      mass_flux_zone numOps0 pActive stEq = 0 ∧
      RH_surf_layer numOps0 psy0 pActive stEq = RH_surf_layer_old psy0 pActive stEq ∧
      RH_deep_layer numOps0 psy0 pActive stEq = RH_deep_layer_old psy0 pActive stEq ∧
      ((CalcMoistureBalanceEMPD numOps0 psy0 pActive stEq 0).1).MassFluxSurfaceLayer = 0 ∧
      ((CalcMoistureBalanceEMPD numOps0 psy0 pActive stEq 0).1).MassFluxDeepLayer = 0 ∧
      ((CalcMoistureBalanceEMPD numOps0 psy0 pActive stEq 0).1).MassFluxZone = 0 :=
  c10_zero_flux_idempotent numOps0 psy0 pActive stEq 0 rfl (by decide) rfl rfl

/-- C6 counterexample: the reporting quantities are not reset at the start of
every new environment.  In a concrete two-environment run, the first
environment transition does reset `RhoVapEMPD` to 0.015, but after the engine
writes 42 into it mid-environment, the second environment transition (latch
re-armed and fired again) leaves it at 42 instead of 0.015, because the
report reset is guarded by the function-static `InitEnvrnFlag`, which is
cleared on the first initialization and never set back. -/
theorem c6_counterexample :
    (((LifecycleStep true [inp1] ⟨true, true, [stZero]⟩).surfaces.getD 0 stZero).RhoVapEMPD
        = 0.015) ∧
      ((envTwoRun.surfaces.getD 0 stZero).RhoVapEMPD = 42) ∧
      (0.015 : ℚ) < 42 :=
  ⟨rfl, rfl, by norm_num⟩

/-- C6 amended: the reporting quantities are reset to their fixed defaults
(vapor density 0.015, humidity ratio 0.015, relative humidity 0, latent heat
flux 0) only on the first initialization of the simulation run: the first
init call performs the reset and clears the first-time flag, later init
calls only re-seed (seeding never touches the reporting fields), and the
lifecycle never sets the first-time flag back to true. -/
theorem c6_amended_report_reset_first_run_only :
    (∀ inputs surfs,
        (InitMoistureBalanceEMPD inputs true surfs).2 =
            (List.zipWith seedSurface inputs surfs).map resetReportVars ∧
          (InitMoistureBalanceEMPD inputs true surfs).1 = false) ∧
      (∀ st : EMPDSurfaceState,
        (resetReportVars st).RhoVapEMPD = 0.015 ∧ (resetReportVars st).WSurfEMPD = 0.015 ∧
          (resetReportVars st).RHEMPD = 0 ∧ (resetReportVars st).HeatFluxLatent = 0) ∧
      (∀ inputs surfs,
        (InitMoistureBalanceEMPD inputs false surfs).2 = List.zipWith seedSurface inputs surfs ∧
          (InitMoistureBalanceEMPD inputs false surfs).1 = false) ∧
      (∀ inp st,
        (seedSurface inp st).RhoVapEMPD = st.RhoVapEMPD ∧
          (seedSurface inp st).WSurfEMPD = st.WSurfEMPD ∧
          (seedSurface inp st).RHEMPD = st.RHEMPD ∧
          (seedSurface inp st).HeatFluxLatent = st.HeatFluxLatent) ∧
      (∀ b inputs ot surfs,
        (LifecycleStep b inputs ⟨ot, false, surfs⟩).InitEnvrnFlag = false) := by
  refine ⟨?_, ?_, ?_, ?_, ?_⟩
  · intro inputs surfs
    exact ⟨rfl, rfl⟩
  · intro st
    exact ⟨rfl, rfl, rfl, rfl⟩
  · intro inputs surfs
    exact ⟨rfl, rfl⟩
  · intro inp st
    unfold seedSurface
    split
    · exact ⟨rfl, rfl, rfl, rfl⟩
    · split
      · exact ⟨rfl, rfl, rfl, rfl⟩
      · exact ⟨rfl, rfl, rfl, rfl⟩
  · intro b inputs ot surfs
    cases b <;> cases ot <;> rfl

/-- C7 counterexample: teardown does not release every per-surface array
allocated by the first-use initialization; `RhoVapEMPD` (among others) is
allocated by init but not deallocated by `CloseMoistureBalanceEMPD`. -/
theorem c7_counterexample :
    InitAllocates EMPDArray.RhoVapEMPD = true ∧
      allocatedAfterClose EMPDArray.RhoVapEMPD = true := by decide

/-- C7 amended: init allocates all fifteen per-surface arrays, and
`CloseMoistureBalanceEMPD` deallocates exactly seven of them (`RVSurfaceOld`,
`RVSurface`, `HeatFluxLatent`, `RVSurfLayer`, `RVSurfLayerOld`,
`RVDeepLayer`, `RVdeepOld`); the other eight (`RhoVapEMPD`, `WSurfEMPD`,
`RHEMPD`, `RVwall`, `HMSurfaceLayer`, `MassFluxSurfaceLayer`,
`MassFluxDeepLayer`, `MassFluxZone`) remain allocated. -/
theorem c7_amended_close_releases_seven :
    ∀ a : EMPDArray,
      InitAllocates a = true ∧
        (allocatedAfterClose a = false ↔ CloseMoistureBalanceEMPDDeallocates a = true) ∧
        (CloseMoistureBalanceEMPDDeallocates a = true ↔
          (a = EMPDArray.RVSurfaceOld ∨ a = EMPDArray.RVSurface ∨
            a = EMPDArray.HeatFluxLatent ∨ a = EMPDArray.RVSurfLayer ∨
            a = EMPDArray.RVSurfLayerOld ∨ a = EMPDArray.RVDeepLayer ∨
            a = EMPDArray.RVdeepOld)) := by
  intro a
  cases a <;> decide

/-- C8 counterexample: during a reset phase lasting two consecutive
timesteps with the new-environment flag set, the seeding (an
`InitMoistureBalanceEMPD` call) is applied once, not on every timestep of
the phase: the latch blocks the second application. -/
theorem c8_counterexample :
    initCalls true [true, true] = 1 ∧ (1 : ℕ) < 2 := by decide

/-- C8 amended: the dual-branch seeding runs on every call of
`InitMoistureBalanceEMPD` (it is not guarded by the first-time flag, unlike
the report reset), but the latch invokes `InitMoistureBalanceEMPD` exactly
once per contiguous reset phase, on its first timestep, however long the
phase lasts. -/
theorem c8_amended_seeding_once_per_phase :
    (∀ inputs surfs,
        (InitMoistureBalanceEMPD inputs false surfs).2 =
          List.zipWith seedSurface inputs surfs) ∧
      (∀ n : ℕ, initCalls true (true :: List.replicate n true) = 1) := by
  constructor
  · intro inputs surfs
    rfl
  · intro n
    have key : ∀ m : ℕ, initCalls false (List.replicate m true) = 0 := by
      intro m
      induction m with
      | zero => rfl
      | succ k ih => simpa [initCalls, OneTimeLatchStep] using ih
    simp [initCalls, OneTimeLatchStep, key n]

/-- C9: new-environment seeding of a heat-transfer surface: the surface
vapor-density slots seed from the zone humidity ratio, the layer-node slots
(current and old, including the wall slot) seed from the incoming-air vapor
density, the mass fluxes seed to zero, and the surface-layer mass-transfer
coefficient seeds to 0.003 when the zone humidity ratio is exactly zero and
to 0.0003 otherwise; the two branches differ in nothing else. -/
theorem c9_dual_branch_seeding :
    ∀ (z ra : ℚ) (st : EMPDSurfaceState),
      seedSurface ⟨true, z, ra⟩ st =
        { st with
            RVSurfaceOld := z
            RVSurface := z
            RVSurfLayer := ra
            RVSurfLayerOld := ra
            RVDeepLayer := ra
            RVdeepOld := ra
            RVwall := ra
            HMSurfaceLayer := if z = 0 then 0.003 else 0.0003
            MassFluxSurfaceLayer := 0
            MassFluxDeepLayer := 0
            MassFluxZone := 0 } := by
  intro z ra st
  unfold seedSurface
  by_cases hz : z = 0 <;> simp [hz]

end MoistureBalanceEMPD
